import Mathlib

/-
Verification of the bag_tracker backend (src/backend/main.py) against its
natural-language specification.

The Python handlers are shallowly embedded as pure Lean functions:
  - a spreadsheet table is a `List` of row structures whose string fields
    correspond to the sheet columns read via `record.get(...)`;
  - `i + 2` row-index arithmetic (header is sheet row 1) is kept as in the
    source, with `List.eraseIdx (r - 2)` modelling `sheet.delete_rows(r)`;
  - wall-clock instants are seconds on a single timeline (`Int`), matching
    the source's use of one fixed timezone for both sides of every
    comparison;
  - external libraries (bcrypt, JWT) enter as oracle parameters: password
    verification is an arbitrary `String → String → Bool`, a decoded token
    is an `Option TokenPayload`;
  - `datetime.strptime` with the fixed formats "%Y-%m-%d %H:%M:%S" and
    "%Y-%m-%d" is modelled by an executable parser reproducing CPython's
    field regexes (4-digit year; 1-2 digit month/day/hour/minute/second
    with the same value ranges; whitespace in the format matching one or
    more whitespace characters; full-string match required) together with
    the `datetime` constructor's day-of-month validation.
-/

namespace BagTracker

/-! ### Python string helpers -/

/-- Python `str.strip()` whitespace characters (space, tab, LF, CR, VT, FF). -/
def isPySpace (c : Char) : Bool :=
  c == ' ' || c == '\t' || c == '\n' || c == '\r' || c == Char.ofNat 11 || c == Char.ofNat 12

/-- Python `str.strip()`: drop leading and trailing whitespace. -/
def pyStrip (s : String) : String :=
  String.mk (((s.toList.dropWhile isPySpace).reverse.dropWhile isPySpace).reverse)

/-! ### `datetime.strptime` for the two fixed formats used by the source -/

/-- Numeric value of a decimal digit character. -/
def digitVal (c : Char) : Nat := c.toNat - '0'.toNat

/-- Read exactly four digits (CPython's regex for `%Y`). -/
def read4 : List Char → Option (Nat × List Char)
  | a :: b :: c :: d :: rest =>
    if a.isDigit && b.isDigit && c.isDigit && d.isDigit then
      some (1000 * digitVal a + 100 * digitVal b + 10 * digitVal c + digitVal d, rest)
    else none
  | _ => none

/-- Read a one- or two-digit field. CPython's regexes for `%m %d %H %M %S`
take two digits when the two-digit value lies in `[lo2, hi2]` and otherwise a
single digit of value at least `lo1`; since the following format character is
never a digit, no further backtracking can occur. -/
def read2or1 (lo2 hi2 lo1 : Nat) : List Char → Option (Nat × List Char)
  | c1 :: c2 :: rest =>
    if c1.isDigit then
      if c2.isDigit then
        let v := 10 * digitVal c1 + digitVal c2
        if lo2 ≤ v && v ≤ hi2 then some (v, rest) else none
      else
        if lo1 ≤ digitVal c1 then some (digitVal c1, c2 :: rest) else none
    else none
  | [c1] => if c1.isDigit && lo1 ≤ digitVal c1 then some (digitVal c1, []) else none
  | [] => none

/-- Match one literal character. -/
def litC (ch : Char) : List Char → Option (List Char)
  | c :: rest => if c == ch then some rest else none
  | [] => none

/-- Match one or more whitespace characters (a whitespace in a `strptime`
format string matches a nonempty whitespace run). -/
def litSpace : List Char → Option (List Char)
  | c :: rest => if isPySpace c then some (rest.dropWhile isPySpace) else none
  | [] => none

/-- Gregorian leap-year test, as in `datetime`. -/
def isLeap (y : Nat) : Bool := y % 4 == 0 && (y % 100 != 0 || y % 400 == 0)

/-- Number of days in a month of a given year, as validated by the
`datetime` constructor. -/
def daysInMonth (y m : Nat) : Nat :=
  if m == 2 then (if isLeap y then 29 else 28)
  else if m == 4 || m == 6 || m == 9 || m == 11 then 30
  else 31

/-- Days elapsed before month `m` in a non-leap year (index 0 unused). -/
def daysBeforeMonth (m : Nat) : Nat :=
  [0, 0, 31, 59, 90, 120, 151, 181, 212, 243, 273, 304, 334].getD m 0

/-- Proleptic-Gregorian day number of a calendar date (the ordinal used by
`datetime.date` arithmetic, so differences of `rataDie` values equal
`(d2 - d1).days`). -/
def rataDie (y m d : Nat) : Nat :=
  365 * (y - 1) + (y - 1) / 4 - (y - 1) / 100 + (y - 1) / 400
    + daysBeforeMonth m + (if 2 < m && isLeap y then 1 else 0) + d

/-- Parse a leading `%Y-%m-%d` prefix, returning the date and the unconsumed
characters. The `1 ≤ y` and day-of-month side conditions are the `datetime`
constructor's validation (`MINYEAR = 1`). -/
def parseYMD (cs : List Char) : Option (Nat × Nat × Nat × List Char) := do
  let (y, r1) ← read4 cs
  let r2 ← litC '-' r1
  let (m, r3) ← read2or1 1 12 1 r2
  let r4 ← litC '-' r3
  let (d, r5) ← read2or1 1 31 1 r4
  if 1 ≤ y && d ≤ daysInMonth y m then pure (y, m, d, r5) else none

/-- The source's `datetime.strptime(s, "%Y-%m-%d").date()`: the whole string
must be consumed. -/
def parseDateYMD (s : String) : Option (Nat × Nat × Nat) :=
  match parseYMD s.toList with
  | some (y, m, d, []) => some (y, m, d)
  | _ => none

/-- Day ordinal of a `%Y-%m-%d` date string. -/
def parseDate (s : String) : Option Nat :=
  (parseDateYMD s).map (fun p => rataDie p.1 p.2.1 p.2.2)

/-- The source's `datetime.strptime(s, "%Y-%m-%d %H:%M:%S")`, as seconds on
the shared timeline. -/
def parseTimestamp (s : String) : Option Nat := do
  let (y, m, d, r) ← parseYMD s.toList
  let r1 ← litSpace r
  let (hh, r2) ← read2or1 0 23 0 r1
  let r3 ← litC ':' r2
  let (mi, r4) ← read2or1 0 59 0 r3
  let r5 ← litC ':' r4
  let (ss, r6) ← read2or1 0 59 0 r5
  if r6 = [] then pure (rataDie y m d * 86400 + hh * 3600 + mi * 60 + ss) else none

/-! ### Data model -/

/-- A row of the "Bag Tracker Data" sheet, with the columns the source reads:
`Timestamp`, `Bin ID`, `Bag ID`, `Scan Type` (cleanup and export),
`Bin Name`, `Type` (deletion), `Date` (export) and `Status`. -/
structure ScanRow where
  timestamp : String
  binId : String
  bagId : String
  scanType : String
  binName : String
  type : String
  date : String
  status : String
  deriving DecidableEq

/-- A row of the "Bag Tracker Users" sheet, in the column order appended by
`register` (`Last Login` is sheet column 8, `Approval` column 9). -/
structure UserRow where
  username : String
  passwordHash : String
  name : String
  mobile : String
  email : String
  branch : String
  createdAt : String
  lastLogin : String
  approval : String
  deriving DecidableEq

/-- Payload carried by a JWT issued by `create_token`. -/
structure TokenPayload where
  username : String
  name : String
  branch : String
  deriving DecidableEq

/-- Public user fields returned by a successful login (no password hash). -/
structure PublicUser where
  username : String
  name : String
  branch : String
  mobile : String
  email : String
  deriving DecidableEq

/-! ### Request bodies -/

/-- Body of `POST /record_scan` and `POST /delete_scan`. -/
structure ScanInput where
  binId : String
  bagId : String
  scanType : String
  deriving DecidableEq

/-- Body of `POST /register`. -/
structure RegisterInput where
  username : String
  password : String
  name : String
  mobile : String
  email : String
  branch : String
  deriving DecidableEq

/-- Body of `POST /login`. -/
structure LoginInput where
  username : String
  password : String
  deriving DecidableEq

/-- Body of `POST /download_data`. -/
structure DownloadRequest where
  startDate : String
  endDate : String
  branch : String
  deriving DecidableEq

/-! ### List helpers mirroring the source's loops -/

/-- Pair each element with its 0-based position starting at `k` (the
`enumerate` loops of the source). -/
def enumIdx : Nat → List α → List (Nat × α)
  | _, [] => []
  | k, a :: l => (k, a) :: enumIdx (k + 1) l

/-- Index of the last element satisfying `p` (the source's backwards
`for i in range(len(records) - 1, -1, -1)` search with `break`). -/
def findLastIdx (p : α → Bool) : List α → Option Nat
  | [] => none
  | a :: l =>
    match findLastIdx p l with
    | some j => some (j + 1)
    | none => if p a then some 0 else none

/-- First row whose `Username` column equals `username`, with its 0-based
position (the `for i, user in enumerate(users)` search in `login`). -/
def findUserIdx (username : String) : List UserRow → Option (Nat × UserRow)
  | [] => none
  | u :: rest =>
    if u.username == username then some (0, u)
    else (findUserIdx username rest).map (fun p => (p.1 + 1, p.2))

/-! ### Simple endpoints -/

/-- Body returned by `GET /health`. -/
structure HealthResponse where
  status : String
  message : String
  deriving DecidableEq

/-- The `health_check` handler. -/
def health_check : HealthResponse := HealthResponse.mk "ok" "Server is running"

/-! ### Registration (`POST /register`) -/

/-- Outcome of the `register` handler, one constructor per returned body. -/
inductive RegisterOutcome where
  | duplicateUsername
  | duplicateMobile
  | missingFields
  | shortPassword
  | registered
  deriving DecidableEq

/-- JSON `status` field of a `register` response body. -/
def RegisterOutcome.statusStr : RegisterOutcome → String
  | .registered => "success"
  | _ => "error"

/-- The `register` handler. `hashpw` is the bcrypt `hash_password` oracle and
`createdAt` the formatted current timestamp; the returned list is the user
table after the call. The duplicate checks scan the full table before any
field validation, exactly as in the source. -/
def register (users : List UserRow) (u : RegisterInput) (createdAt : String)
    (hashpw : String → String) : RegisterOutcome × List UserRow :=
  if users.any (fun e => e.username == u.username) then (RegisterOutcome.duplicateUsername, users)
  else if users.any (fun e => e.mobile == u.mobile) then (RegisterOutcome.duplicateMobile, users)
  else if u.username == "" || u.password == "" || u.name == "" || u.mobile == "" || u.branch == ""
    then (RegisterOutcome.missingFields, users)
  else if u.password.length < 6 then (RegisterOutcome.shortPassword, users)
  else (RegisterOutcome.registered,
    users ++ [UserRow.mk u.username (hashpw u.password) u.name u.mobile u.email u.branch
      createdAt "" ""])

/-! ### Login (`POST /login`) -/

/-- Outcome of the `login` handler. -/
inductive LoginOutcome where
  | invalidCredentials
  | approvalRequired
  | loggedIn (token : TokenPayload) (user : PublicUser)
  deriving DecidableEq

/-- JSON `status` field of a `login` response body. -/
def LoginOutcome.statusStr : LoginOutcome → String
  | .loggedIn _ _ => "success"
  | _ => "error"

/-- Replace the `Last Login` cell (sheet column 8) of a user row. -/
def setLastLogin (r : UserRow) (v : String) : UserRow :=
  UserRow.mk r.username r.passwordHash r.name r.mobile r.email r.branch r.createdAt v r.approval

/-- The `login` handler. `checkpw` is the bcrypt `verify_password` oracle and
`now` the formatted current timestamp; the returned list is the user table
after the call. -/
def login (checkpw : String → String → Bool) (users : List UserRow) (cred : LoginInput)
    (now : String) : LoginOutcome × List UserRow :=
  match findUserIdx cred.username users with
  | none => (LoginOutcome.invalidCredentials, users)
  | some (i, row) =>
    if !checkpw cred.password row.passwordHash then (LoginOutcome.invalidCredentials, users)
    else if pyStrip row.approval != "Approved" then (LoginOutcome.approvalRequired, users)
    else
      (LoginOutcome.loggedIn (TokenPayload.mk row.username row.name row.branch)
        (PublicUser.mk row.username row.name row.branch row.mobile row.email),
       users.set i (setLastLogin row now))

/-! ### Token endpoints -/

/-- Outcome of the `verify_user_token` handler; its argument is the decoded
payload, `none` standing for an expired or tampered token. -/
inductive VerifyOutcome where
  | valid (payload : TokenPayload)
  | invalid
  deriving DecidableEq

/-- JSON `status` field of a `verify_token` response body. -/
def VerifyOutcome.statusStr : VerifyOutcome → String
  | .valid _ => "success"
  | .invalid => "error"

/-- The `verify_user_token` handler over the token-decoding oracle's result. -/
def verify_user_token (payload : Option TokenPayload) : VerifyOutcome :=
  match payload with
  | some p => VerifyOutcome.valid p
  | none => VerifyOutcome.invalid

/-- Outcome of the `check_approval` handler. -/
inductive CheckApprovalOutcome where
  | invalidToken
  | invalidPayload
  | userNotFound
  | ok (approved : Bool) (approvalStatus : String)
  deriving DecidableEq

/-- JSON `status` field of a `check_approval` response body. -/
def CheckApprovalOutcome.statusStr : CheckApprovalOutcome → String
  | .ok _ _ => "success"
  | _ => "error"

/-- The `check_approval` handler over the token-decoding oracle's result. -/
def check_approval (payload : Option TokenPayload) (users : List UserRow) :
    CheckApprovalOutcome :=
  match payload with
  | none => CheckApprovalOutcome.invalidToken
  | some p =>
    if p.username == "" then CheckApprovalOutcome.invalidPayload
    else
      match findUserIdx p.username users with
      | none => CheckApprovalOutcome.userNotFound
      | some (_, row) =>
        let a := pyStrip row.approval
        CheckApprovalOutcome.ok (a == "Approved") (if a == "" then "Pending" else a)

/-! ### Scan deletion (`POST /delete_scan`) -/

/-- Outcome of the `delete_scan` handler. -/
inductive DeleteOutcome where
  | deleted
  | recordNotFound
  deriving DecidableEq

/-- JSON `status` field of a `delete_scan` response body. -/
def DeleteOutcome.statusStr : DeleteOutcome → String
  | .deleted => "success"
  | .recordNotFound => "error"

/-- The row-match test of `delete_scan`: string equality of the `Bin Name`,
`Bag ID` and `Type` columns against the request fields. -/
def scanMatches (d : ScanInput) (r : ScanRow) : Bool :=
  r.binName == d.binId && r.bagId == d.bagId && r.type == d.scanType

/-- The `delete_scan` handler: backwards search for the most recent matching
row, deletion of that single sheet row (`i + 2` maps record `i` to its sheet
row), error with the table unchanged if nothing matches. -/
def delete_scan (records : List ScanRow) (d : ScanInput) : DeleteOutcome × List ScanRow :=
  match findLastIdx (scanMatches d) records with
  | some i =>
    let rowToDelete := i + 2
    (DeleteOutcome.deleted, records.eraseIdx (rowToDelete - 2))
  | none => (DeleteOutcome.recordNotFound, records)

/-! ### Export (`POST /download_data`) -/

/-- Result of the `download_data` handler: a JSON error body, or a streamed
spreadsheet file (named after the range and branch) of the filtered rows. -/
inductive DownloadResult where
  | invalidRange (message : String)
  | noDataFound
  | badDateInput
  | file (filename : String) (rows : List ScanRow)
  deriving DecidableEq

/-- True exactly on the two `InvalidRange` bodies. -/
def DownloadResult.isInvalidRange : DownloadResult → Bool
  | .invalidRange _ => true
  | _ => false

/-- JSON `status` field of a `download_data` response body, `none` for the
binary file response. -/
def DownloadResult.bodyStatus : DownloadResult → Option String
  | .file _ _ => none
  | _ => some "error"

/-- Zero-padded two-digit rendering used by `strftime("%d-%m-%Y")`. -/
def pad2 (n : Nat) : String := if n < 10 then "0" ++ toString n else toString n

/-- Format a date as `DD-MM-YYYY`. -/
def fmtDMY (y m d : Nat) : String := pad2 d ++ "-" ++ pad2 m ++ "-" ++ toString y

/-- The `download_data` handler. A `ValueError` from parsing the request
dates is caught by the handler's `except` and becomes a JSON error body
(`badDateInput`). -/
def download_data (records : List ScanRow) (req : DownloadRequest) : DownloadResult :=
  match parseDateYMD req.startDate, parseDateYMD req.endDate with
  | some (ys, ms, ds), some (ye, me, de) =>
    let startOrd := rataDie ys ms ds
    let endOrd := rataDie ye me de
    let dateDiff : Int := (endOrd : Int) - (startOrd : Int)
    if dateDiff < 0 then DownloadResult.invalidRange "Start date must be before or equal to end date"
    else if dateDiff > 7 then DownloadResult.invalidRange "Date range cannot exceed 7 days"
    else
      let filtered := records.filter (fun r =>
        if r.date == "" then false
        else
          match parseDate r.date with
          | some o => decide (startOrd ≤ o) && decide (o ≤ endOrd)
          | none => false)
      if filtered.isEmpty then DownloadResult.noDataFound
      else
        DownloadResult.file
          (fmtDMY ys ms ds ++ "-" ++ fmtDMY ye me de ++ "_" ++ req.branch ++ ".xlsx") filtered
  | _, _ => DownloadResult.badDateInput

/-! ### Retention module -/

/-- Entry of the dry-run report of `cleanup_old_scan_data`. -/
structure ScanReport where
  row : Nat
  timestamp : String
  binId : String
  bagId : String
  scanType : String
  deriving DecidableEq

/-- Body returned by `cleanup_old_scan_data`. -/
structure CleanupScanResult where
  status : String
  dryRun : Bool
  deletedCount : Nat
  records : List ScanReport
  deriving DecidableEq

/-- The deletion test of `cleanup_old_scan_data`: nonempty `Timestamp` that
parses with the fixed format to an instant strictly before the cutoff. -/
def isOldScan (cutoff : Int) (r : ScanRow) : Bool :=
  if r.timestamp == "" then false
  else
    match parseTimestamp r.timestamp with
    | some t => decide ((t : Int) < cutoff)
    | none => false

/-- The `cleanup_old_scan_data` function. `now` is the current instant in
seconds; the returned list is the scan table after the call. Candidate sheet
rows are collected in ascending order and, outside dry runs, deleted in
reverse (descending) order as in the source. -/
def cleanup_old_scan_data (records : List ScanRow) (now : Int) (dryRun : Bool) :
    CleanupScanResult × List ScanRow :=
  let sevenDaysAgo : Int := now - 7 * 86400
  let cands := (enumIdx 0 records).filter (fun q => isOldScan sevenDaysAgo q.2)
  let rowsToDelete := cands.map (fun q => q.1 + 2)
  let deletedRecords := cands.map (fun q =>
    ScanReport.mk (q.1 + 2) q.2.timestamp q.2.binId q.2.bagId q.2.scanType)
  let newTable :=
    if dryRun then records
    else rowsToDelete.foldr (fun r acc => acc.eraseIdx (r - 2)) records
  (CleanupScanResult.mk "success" dryRun rowsToDelete.length
    (if dryRun then deletedRecords else []), newTable)

/-- Entry of the dry-run report of `cleanup_inactive_users`. -/
structure UserReport where
  row : Nat
  username : String
  name : String
  lastLogin : String
  branch : String
  deriving DecidableEq

/-- Body returned by `cleanup_inactive_users`. -/
structure CleanupUsersResult where
  status : String
  dryRun : Bool
  deletedCount : Nat
  users : List UserReport
  deriving DecidableEq

/-- The deletion test of `cleanup_inactive_users`: stripped `Last Login`
nonempty and parsing to an instant strictly before the cutoff. -/
def isInactiveUser (cutoff : Int) (u : UserRow) : Bool :=
  if pyStrip u.lastLogin == "" then false
  else
    match parseTimestamp (pyStrip u.lastLogin) with
    | some t => decide ((t : Int) < cutoff)
    | none => false

/-- The `cleanup_inactive_users` function, mirroring `cleanup_old_scan_data`
with a 10-day cutoff against the stripped `Last Login` column. -/
def cleanup_inactive_users (users : List UserRow) (now : Int) (dryRun : Bool) :
    CleanupUsersResult × List UserRow :=
  let tenDaysAgo : Int := now - 10 * 86400
  let cands := (enumIdx 0 users).filter (fun q => isInactiveUser tenDaysAgo q.2)
  let rowsToDelete := cands.map (fun q => q.1 + 2)
  let deletedUsers := cands.map (fun q =>
    UserReport.mk (q.1 + 2) q.2.username q.2.name (pyStrip q.2.lastLogin) q.2.branch)
  let newTable :=
    if dryRun then users
    else rowsToDelete.foldr (fun r acc => acc.eraseIdx (r - 2)) users
  (CleanupUsersResult.mk "success" dryRun rowsToDelete.length
    (if dryRun then deletedUsers else []), newTable)

/-- Outcome of the `/cleanup` endpoint. -/
inductive CleanupOutcome where
  | invalidKey
  | ran (scanResult : CleanupScanResult) (userResult : CleanupUsersResult)
  deriving DecidableEq

/-- JSON `status` field of a `/cleanup` response body. -/
def CleanupOutcome.statusStr : CleanupOutcome → String
  | .ran _ _ => "success"
  | .invalidKey => "error"

/-- The `cleanup_data` handler: exact secret-key match, then both cleanup
functions; returns the outcome with both tables after the call. -/
def cleanup_data (providedKey expectedKey : String) (scans : List ScanRow)
    (users : List UserRow) (now : Int) (dryRun : Bool) :
    CleanupOutcome × List ScanRow × List UserRow :=
  if providedKey != expectedKey then (CleanupOutcome.invalidKey, scans, users)
  else
    let sr := cleanup_old_scan_data scans now dryRun
    let ur := cleanup_inactive_users users now dryRun
    (CleanupOutcome.ran sr.1 ur.1, sr.2, ur.2)

/-! ### Rate limiter -/

/-- The configured 60-second window. -/
def RATE_LIMIT_WINDOW : Int := 60

/-- The configured cap of 5 requests per window. -/
def RATE_LIMIT_MAX_REQUESTS : Nat := 5

/-- One pass of the `rate_limit` wrapper for a single client address:
prune entries older than the window, reject if the cap is reached, otherwise
record the request. Returns whether the wrapped handler runs, and the new
per-address timestamp list. -/
def rateLimitStep (store : List Int) (now : Int) : Bool × List Int :=
  let pruned := store.filter (fun t => decide (now - t < RATE_LIMIT_WINDOW))
  if pruned.length ≥ RATE_LIMIT_MAX_REQUESTS then (false, pruned)
  else (true, pruned ++ [now])

/-- Run a sequence of requests (by arrival instant) through the limiter,
collecting each request's pass/reject flag. -/
def rateLimitRun (store : List Int) : List Int → List Bool × List Int
  | [] => ([], store)
  | t :: ts =>
    let s := rateLimitStep store t
    let rest := rateLimitRun s.2 ts
    (s.1 :: rest.1, rest.2)

/-! ### Scan recording -/

/-- Outcome of `recordScan`. -/
inductive RecordScanOutcome where
  | recorded
  | storeUnavailable
  deriving DecidableEq

/-- Modelled from the spec: the `recordScan` operation (`POST /record_scan`,
spec §4.3/§6) has no handler in src/backend/main.py; only the spec describes
it. On an available store adapter it timestamps with the current local time
and appends one row with status "Scanned"; on adapter failure it fails with
`StoreUnavailable` without retrying. The deletion-side columns (`Bin Name`,
`Type`) and the export `Date` column are left empty, the spec's column-naming
contract being an open question (§9). -/
def recordScan (adapterOk : Bool) (records : List ScanRow) (now : String) (d : ScanInput) :
    RecordScanOutcome × List ScanRow :=
  if adapterOk then
    (RecordScanOutcome.recorded,
     records ++ [ScanRow.mk now d.binId d.bagId d.scanType "" "" "" "Scanned"])
  else (RecordScanOutcome.storeUnavailable, records)

/-! ### List lemmas about the loop patterns of the source -/

theorem enumIdx_shift (l : List α) : ∀ k : Nat,
    enumIdx (k + 1) l = (enumIdx k l).map (fun q => (q.1 + 1, q.2)) := by
  induction l with
  | nil => intro k; rfl
  | cons a l ih =>
    intro k
    show (k + 1, a) :: enumIdx (k + 2) l = (k + 1, a) :: (enumIdx (k + 1) l).map _
    rw [ih (k + 1)]

theorem foldr_erase_shift (F : List (Nat × α)) (b : α) (m : List α) :
    (F.map (fun q => (q.1 + 1, q.2))).foldr (fun q acc => acc.eraseIdx q.1) (b :: m)
      = b :: F.foldr (fun q acc => acc.eraseIdx q.1) m := by
  induction F with
  | nil => rfl
  | cons q F ih => simp only [List.map_cons, List.foldr_cons, ih, List.eraseIdx_cons_succ]

/-- Deleting the candidate sheet rows in descending order, as the retention
loops do, removes exactly the records satisfying the candidate predicate. -/
theorem eraseFold_pairs (p : α → Bool) (l : List α) :
    ((enumIdx 0 l).filter (fun q => p q.2)).foldr (fun q acc => acc.eraseIdx q.1) l
      = l.filter (fun a => !p a) := by
  induction l with
  | nil => rfl
  | cons a l ih =>
    have h1 : enumIdx 0 (a :: l) = (0, a) :: (enumIdx 0 l).map (fun q => (q.1 + 1, q.2)) := by
      show ((0 : Nat), a) :: enumIdx 1 l = _
      rw [enumIdx_shift l 0]
    have h2 : ((enumIdx 0 l).map (fun q => (q.1 + 1, q.2))).filter (fun q => p q.2)
        = ((enumIdx 0 l).filter (fun q => p q.2)).map (fun q => (q.1 + 1, q.2)) := by
      rw [List.filter_map]; rfl
    rw [h1, List.filter_cons]
    by_cases hpa : p a
    · simp only [hpa, if_pos, List.foldr_cons, h2, foldr_erase_shift, List.eraseIdx_zero,
        List.tail_cons, ih, List.filter_cons, Bool.not_true, Bool.false_eq_true, if_false]
    · have hpa' : p a = false := by simpa using hpa
      simp only [hpa', Bool.false_eq_true, if_false, h2, foldr_erase_shift, ih,
        List.filter_cons, Bool.not_false, if_pos]

theorem findLastIdx_eq_none (p : α → Bool) (l : List α) :
    findLastIdx p l = none ↔ ∀ a ∈ l, p a = false := by
  induction l with
  | nil => simp [findLastIdx]
  | cons a l ih =>
    cases h : findLastIdx p l with
    | none =>
      have hall := ih.mp h
      by_cases hpa : p a
      · simp [findLastIdx, h, hpa]
      · have hpa' : p a = false := by simpa using hpa
        simp only [findLastIdx, h, hpa', Bool.false_eq_true, if_false, true_iff]
        intro x hx
        rcases List.mem_cons.mp hx with rfl | hx'
        · exact hpa'
        · exact hall x hx'
    | some j =>
      constructor
      · intro hcontra
        rw [findLastIdx, h] at hcontra
        exact absurd hcontra (by simp)
      · intro hall
        have hnone : findLastIdx p l = none :=
          ih.mpr (fun x hx => hall x (List.mem_cons_of_mem a hx))
        rw [hnone] at h
        exact Option.noConfusion h

theorem findLastIdx_eq_some (p : α → Bool) (l : List α) (i : Nat) (hi : i < l.length)
    (hp : p (l.get ⟨i, hi⟩) = true)
    (hafter : ∀ j (hj : j < l.length), i < j → p (l.get ⟨j, hj⟩) = false) :
    findLastIdx p l = some i := by
  induction l generalizing i with
  | nil => exact absurd hi (by simp)
  | cons a l ih =>
    cases i with
    | zero =>
      have hnone : findLastIdx p l = none := by
        rw [findLastIdx_eq_none]
        intro x hx
        obtain ⟨⟨k, hk⟩, rfl⟩ := List.mem_iff_get.mp hx
        have := hafter (k + 1) (by simpa using Nat.succ_lt_succ hk) (Nat.succ_pos k)
        simpa using this
      rw [findLastIdx, hnone]
      simpa using hp
    | succ i' =>
      have hi' : i' < l.length := Nat.lt_of_succ_lt_succ hi
      have hp' : p (l.get ⟨i', hi'⟩) = true := by simpa using hp
      have hafter' : ∀ j (hj : j < l.length), i' < j → p (l.get ⟨j, hj⟩) = false := by
        intro j hj hij
        have := hafter (j + 1) (Nat.succ_lt_succ hj) (Nat.succ_lt_succ hij)
        simpa using this
      rw [findLastIdx, ih i' hi' hp' hafter']

theorem countP_filter_of_imp (p q : α → Bool) (l : List α)
    (h : ∀ a, q a = true → p a = false) :
    (l.filter (fun a => !p a)).countP q = l.countP q := by
  rw [List.countP_filter]
  apply List.countP_congr
  intro a _
  cases hq : q a
  · simp
  · simp [h a hq]

/-- A non-dry run of `cleanup_inactive_users` keeps exactly the rows that are
not deletion candidates. -/
theorem cleanup_inactive_users_table (users : List UserRow) (now : Int) :
    (cleanup_inactive_users users now false).2
      = users.filter (fun u => !isInactiveUser (now - 10 * 86400) u) := by
  simp only [cleanup_inactive_users, Bool.false_eq_true, if_false, List.foldr_map,
    Nat.add_sub_cancel]
  exact eraseFold_pairs _ users

/-! ### Claim C1 -/

/-- Claim C1, counterexample: the claim says every endpoint's JSON response
body carries a `status` field whose value is "success" or "error", but the
`GET /health` handler returns a body whose `status` is "ok". -/
theorem c1_counterexample :
    health_check.status = "ok" ∧
    ¬(health_check.status = "success" ∨ health_check.status = "error") := by
  exact ⟨rfl, by decide⟩

/-- Claim C1, amended: every JSON response body of the embedded handlers
carries a `status` field whose value is "success" or "error", except
`GET /health`, whose body carries `status` "ok" (the binary spreadsheet
response of `download_data` carries no JSON body at all). -/
theorem c1_amended_status_field :
    health_check.status = "ok" ∧
    (∀ (users : List UserRow) (u : RegisterInput) (c : String) (hs : String → String),
      (register users u c hs).1.statusStr = "success" ∨
        (register users u c hs).1.statusStr = "error") ∧
    (∀ (cp : String → String → Bool) (users : List UserRow) (cred : LoginInput) (now : String),
      (login cp users cred now).1.statusStr = "success" ∨
        (login cp users cred now).1.statusStr = "error") ∧
    (∀ p : Option TokenPayload,
      (verify_user_token p).statusStr = "success" ∨ (verify_user_token p).statusStr = "error") ∧
    (∀ (p : Option TokenPayload) (users : List UserRow),
      (check_approval p users).statusStr = "success" ∨
        (check_approval p users).statusStr = "error") ∧
    (∀ (records : List ScanRow) (d : ScanInput),
      (delete_scan records d).1.statusStr = "success" ∨
        (delete_scan records d).1.statusStr = "error") ∧
    (∀ (records : List ScanRow) (req : DownloadRequest),
      (download_data records req).bodyStatus = none ∨
        (download_data records req).bodyStatus = some "error") ∧
    (∀ (pk ek : String) (scans : List ScanRow) (users : List UserRow) (now : Int) (dr : Bool),
      (cleanup_data pk ek scans users now dr).1.statusStr = "success" ∨
        (cleanup_data pk ek scans users now dr).1.statusStr = "error") := by
  refine ⟨rfl, ?_, ?_, ?_, ?_, ?_, ?_, ?_⟩
  · intro users u c hs
    cases (register users u c hs).1 <;> simp [RegisterOutcome.statusStr]
  · intro cp users cred now
    cases (login cp users cred now).1 <;> simp [LoginOutcome.statusStr]
  · intro p
    cases verify_user_token p <;> simp [VerifyOutcome.statusStr]
  · intro p users
    cases check_approval p users <;> simp [CheckApprovalOutcome.statusStr]
  · intro records d
    cases (delete_scan records d).1 <;> simp [DeleteOutcome.statusStr]
  · intro records req
    cases download_data records req <;> simp [DownloadResult.bodyStatus]
  · intro pk ek scans users now dr
    cases (cleanup_data pk ek scans users now dr).1 <;> simp [CleanupOutcome.statusStr]

/-! ### Claim C2 -/

/-- Claim C2: `recordScan` (spec-modelled, the handler is absent from src)
appends, on success, exactly one row whose timestamp is the current time and
whose status is "Scanned"; on adapter failure it fails with
`StoreUnavailable` leaving the table unchanged, with no retry. -/
theorem c2_recordScan : ∀ (records : List ScanRow) (now : String) (d : ScanInput),
    recordScan true records now d
      = (RecordScanOutcome.recorded,
         records ++ [ScanRow.mk now d.binId d.bagId d.scanType "" "" "" "Scanned"]) ∧
    recordScan false records now d = (RecordScanOutcome.storeUnavailable, records) := by
  intro records now d
  exact ⟨rfl, rfl⟩

/-! ### Claim C6 -/

/-- Claim C6: if any existing row has the requested username, registration
fails with `DuplicateUsername` and leaves the table unchanged, regardless of
the other fields of the request (the duplicate scan runs before any field
validation, so even an empty or short password does not change the
outcome). -/
theorem c6_duplicate_username :
    ∀ (users : List UserRow) (u : RegisterInput) (createdAt : String)
      (hashpw : String → String), (∃ r ∈ users, r.username = u.username) →
    register users u createdAt hashpw = (RegisterOutcome.duplicateUsername, users) := by
  rintro users u createdAt hashpw ⟨r, hr, hname⟩
  have hany : users.any (fun e => e.username == u.username) = true := by
    rw [List.any_eq_true]
    exact ⟨r, hr, by simp [hname]⟩
  simp [register, hany]

/-- Claim C6, witness: a second "alice" registration with an empty name and a
1-character password still fails with `DuplicateUsername`. -/
theorem c6_witness :
    register [UserRow.mk "alice" "H" "A" "1" "" "B" "c" "" ""]
      (RegisterInput.mk "alice" "x" "" "2" "" "") "c2" (fun s => s)
      = (RegisterOutcome.duplicateUsername, [UserRow.mk "alice" "H" "A" "1" "" "B" "c" "" ""]) :=
  c6_duplicate_username _ _ _ _ ⟨UserRow.mk "alice" "H" "A" "1" "" "B" "c" "" "", by simp, rfl⟩

/-! ### Claim C10 -/

/-- Claim C10: whenever login fails — with `InvalidCredentials` or with
`ApprovalRequired` — the user table is unchanged; `last_login` is written
only on the success path, after the approval check. -/
theorem c10_login_failure_table_unchanged :
    ∀ (checkpw : String → String → Bool) (users : List UserRow) (cred : LoginInput) (now : String),
    ((login checkpw users cred now).1 = LoginOutcome.invalidCredentials ∨
      (login checkpw users cred now).1 = LoginOutcome.approvalRequired) →
    (login checkpw users cred now).2 = users := by
  intro cp users cred now h
  simp only [login] at h ⊢
  cases hf : findUserIdx cred.username users with
  | none => simp only [hf]
  | some p =>
    obtain ⟨i, row⟩ := p
    simp only [hf] at h ⊢
    split_ifs at h ⊢ <;> first
      | rfl
      | (rcases h with h | h <;> simp at h)

/-- Claim C10, witness: a login with an unknown username leaves an empty user
table empty. -/
theorem c10_witness :
    (login (fun _ _ => false) ([] : List UserRow) (LoginInput.mk "a" "b") "T").2 = [] :=
  c10_login_failure_table_unchanged _ _ _ _ (Or.inl rfl)

/-! ### Claim C3 -/

/-- Claim C3, counterexample: the claim says `exportRange` fails with
`InvalidRange` exactly when the inclusive span exceeds 7 days, but for
start = 2024-01-01 and end = 2024-01-08 — an inclusive span of 8 days — the
handler does not fail with `InvalidRange` (it proceeds and, on an empty
table, reports `NoDataFound`), because the source only rejects
`(end - start).days > 7`. -/
theorem c3_counterexample :
    download_data [] (DownloadRequest.mk "2024-01-01" "2024-01-08" "X")
      = DownloadResult.noDataFound ∧
    ((rataDie 2024 1 8 : Int) - (rataDie 2024 1 1 : Int) + 1 = 8 ∧ (8 : Int) > 7) :=
  ⟨rfl, by decide⟩

/-- Claim C3, amended: `download_data` fails with `InvalidRange` exactly when
startDate > endDate or endDate − startDate exceeds 7 days (so an inclusive
span of up to 8 days is accepted); in particular start = "2024-01-10",
end = "2024-01-01" fails (start after end), and start = "2024-01-01",
end = "2024-01-09" (difference 8 days) fails (range too long). -/
theorem c3_amended_invalid_range :
    (∀ (records : List ScanRow) (s e b : String) (ys ms ds ye me de : Nat),
      parseDateYMD s = some (ys, ms, ds) → parseDateYMD e = some (ye, me, de) →
      ((download_data records (DownloadRequest.mk s e b)).isInvalidRange = true ↔
        ((rataDie ye me de : Int) - (rataDie ys ms ds : Int) < 0 ∨
          (rataDie ye me de : Int) - (rataDie ys ms ds : Int) > 7))) ∧
    download_data [] (DownloadRequest.mk "2024-01-10" "2024-01-01" "X")
      = DownloadResult.invalidRange "Start date must be before or equal to end date" ∧
    download_data [] (DownloadRequest.mk "2024-01-01" "2024-01-09" "X")
      = DownloadResult.invalidRange "Date range cannot exceed 7 days" := by
  refine ⟨?_, rfl, rfl⟩
  intro records s e b ys ms ds ye me de hs he
  simp only [download_data, hs, he]
  by_cases h1 : (rataDie ye me de : Int) - (rataDie ys ms ds : Int) < 0
  · simp [h1, DownloadResult.isInvalidRange]
  · by_cases h2 : (rataDie ye me de : Int) - (rataDie ys ms ds : Int) > 7
    · simp [h1, h2, DownloadResult.isInvalidRange]
    · simp only [h1, h2, if_false]
      split
      · simp [DownloadResult.isInvalidRange, h1, h2]
      · simp [DownloadResult.isInvalidRange, h1, h2]

/-- Claim C3, witness: the amended equivalence applied to the reversed range
2024-01-10 .. 2024-01-01. -/
theorem c3_witness :
    (download_data [] (DownloadRequest.mk "2024-01-10" "2024-01-01" "X")).isInvalidRange
      = true :=
  (c3_amended_invalid_range.1 [] "2024-01-10" "2024-01-01" "X" 2024 1 10 2024 1 1
    rfl rfl).mpr (by decide)

/-! ### Claim C4 -/

/-- Claim C4, counterexample: the claim says login succeeds only if the
user's approval field equals the exact string "Approved", but the source
strips whitespace before comparing, so a row whose approval cell is
" Approved " — not equal to "Approved" — still logs in successfully. -/
theorem c4_counterexample :
    (login (fun _ _ => true) [UserRow.mk "u" "h" "n" "m" "e" "b" "c" "" " Approved "]
        (LoginInput.mk "u" "p") "T").1
      = LoginOutcome.loggedIn (TokenPayload.mk "u" "n" "b") (PublicUser.mk "u" "n" "b" "m" "e") ∧
    " Approved " ≠ "Approved" :=
  ⟨rfl, by decide⟩

/-- Claim C4, amended: login succeeds only if the found user's approval
field, stripped of leading and trailing whitespace, equals the exact
case-sensitive string "Approved"; and whenever the username is found and the
password matches but the stripped approval differs from "Approved" —
including "approved", "Pending" and the empty string — login fails with
`ApprovalRequired`. -/
theorem c4_amended_approval_gate :
    ∀ (checkpw : String → String → Bool) (users : List UserRow) (cred : LoginInput) (now : String),
    (∀ tok pu, (login checkpw users cred now).1 = LoginOutcome.loggedIn tok pu →
      ∃ i row, findUserIdx cred.username users = some (i, row) ∧
        pyStrip row.approval = "Approved") ∧
    (∀ i row, findUserIdx cred.username users = some (i, row) →
      checkpw cred.password row.passwordHash = true →
      pyStrip row.approval ≠ "Approved" →
      (login checkpw users cred now).1 = LoginOutcome.approvalRequired) := by
  intro cp users cred now
  constructor
  · intro tok pu h
    simp only [login] at h
    cases hf : findUserIdx cred.username users with
    | none => rw [hf] at h; exact absurd h (by simp)
    | some p =>
      obtain ⟨i, row⟩ := p
      rw [hf] at h
      refine ⟨i, row, rfl, ?_⟩
      by_cases hc : cp cred.password row.passwordHash
      · by_cases ha : pyStrip row.approval = "Approved"
        · exact ha
        · simp [hc, ha, bne_iff_ne] at h
      · simp [hc] at h
  · intro i row hf hc ha
    simp only [login, hf]
    simp [hc, ha, bne_iff_ne]

/-- Claim C4, witness: a found user with matching password but approval
"Pending" is rejected with `ApprovalRequired`. -/
theorem c4_witness :
    (login (fun _ _ => true) [UserRow.mk "u" "h" "n" "m" "e" "b" "c" "" "Pending"]
        (LoginInput.mk "u" "p") "T").1 = LoginOutcome.approvalRequired :=
  (c4_amended_approval_gate (fun _ _ => true)
      [UserRow.mk "u" "h" "n" "m" "e" "b" "c" "" "Pending"] (LoginInput.mk "u" "p") "T").2
    0 (UserRow.mk "u" "h" "n" "m" "e" "b" "c" "" "Pending") rfl rfl (by decide)

/-! ### Claim C5 -/

/-- Claim C5: over any scan table, `delete_scan` deletes exactly the most
recently appended row matching (bin_id, bag_id, scan_type) as strings — at
most one row per call even when several match — and fails with
`RecordNotFound`, leaving the table unchanged, when no row matches. -/
theorem c5_delete_most_recent_match :
    ∀ (records : List ScanRow) (d : ScanInput),
    ((∀ r ∈ records, scanMatches d r = false) →
      delete_scan records d = (DeleteOutcome.recordNotFound, records)) ∧
    (∀ (i : Nat) (hi : i < records.length),
      scanMatches d (records.get ⟨i, hi⟩) = true →
      (∀ j (hj : j < records.length), i < j → scanMatches d (records.get ⟨j, hj⟩) = false) →
      delete_scan records d
        = (DeleteOutcome.deleted, records.take i ++ records.drop (i + 1))) := by
  intro records d
  constructor
  · intro hall
    have h := (findLastIdx_eq_none (scanMatches d) records).mpr hall
    simp [delete_scan, h]
  · intro i hi hp hafter
    have h := findLastIdx_eq_some (scanMatches d) records i hi hp hafter
    simp [delete_scan, h, Nat.add_sub_cancel, List.eraseIdx_eq_take_drop_succ]

/-- Claim C5, witness: with two identical matching rows, `delete_scan`
removes the later one and keeps the earlier one. -/
theorem c5_witness :
    delete_scan
        [ScanRow.mk "" "" "BAG" "" "BIN" "FWD" "" "", ScanRow.mk "" "" "BAG" "" "BIN" "FWD" "" ""]
        (ScanInput.mk "BIN" "BAG" "FWD")
      = (DeleteOutcome.deleted, [ScanRow.mk "" "" "BAG" "" "BIN" "FWD" "" ""]) := by
  have h := (c5_delete_most_recent_match
      [ScanRow.mk "" "" "BAG" "" "BIN" "FWD" "" "", ScanRow.mk "" "" "BAG" "" "BIN" "FWD" "" ""]
      (ScanInput.mk "BIN" "BAG" "FWD")).2 1 (by decide) (by decide)
    (fun j hj hij => absurd hj (by simp only [List.length_cons, List.length_nil]; omega))
  simpa using h

/-! ### Claim C7 -/

/-- Claim C7: a dry run of `cleanup_old_scan_data` leaves the scan table
unchanged, and its reported candidate list consists of exactly the rows
whose `Timestamp`, parsed with the fixed "YYYY-MM-DD HH:MM:SS" format, is
strictly before now minus 7 days; rows with an empty or unparseable
timestamp are never candidates (an empty timestamp does not parse). -/
theorem c7_cleanup_scans_dry_run :
    ∀ (records : List ScanRow) (now : Int),
    (cleanup_old_scan_data records now true).2 = records ∧
    (cleanup_old_scan_data records now true).1.records
      = ((enumIdx 0 records).filter (fun q =>
            match parseTimestamp q.2.timestamp with
            | some t => decide ((t : Int) < now - 7 * 86400)
            | none => false)).map
          (fun q => ScanReport.mk (q.1 + 2) q.2.timestamp q.2.binId q.2.bagId q.2.scanType) := by
  intro records now
  have hpt : ∀ r : ScanRow, isOldScan (now - 7 * 86400) r
      = (match parseTimestamp r.timestamp with
         | some t => decide ((t : Int) < now - 7 * 86400)
         | none => false) := by
    intro r
    unfold isOldScan
    by_cases h : r.timestamp = ""
    · rw [h]
      rfl
    · have hb : (r.timestamp == "") = false := by simpa using h
      rw [hb]
      rfl
  constructor
  · rfl
  · show ((enumIdx 0 records).filter (fun q => isOldScan (now - 7 * 86400) q.2)).map _ = _
    have hfun : (fun q : Nat × ScanRow => isOldScan (now - 7 * 86400) q.2)
        = (fun q : Nat × ScanRow =>
            match parseTimestamp q.2.timestamp with
            | some t => decide ((t : Int) < now - 7 * 86400)
            | none => false) :=
      funext fun q => hpt q.2
    rw [hfun]

/-! ### Claim C8 -/

/-- Claim C8: `cleanup_inactive_users` never selects as a deletion candidate
a user whose `Last Login` is empty, however old `created_at` is: every
report entry has a nonempty last login, the count of empty-last-login rows
is preserved by the run (dry or real), and every empty-last-login row is
still a member of the table after the run. -/
theorem c8_never_logged_in_exempt :
    ∀ (users : List UserRow) (now : Int) (dryRun : Bool),
    (∀ rep ∈ (cleanup_inactive_users users now dryRun).1.users, rep.lastLogin ≠ "") ∧
    ((cleanup_inactive_users users now dryRun).2).countP (fun u => pyStrip u.lastLogin == "")
      = users.countP (fun u => pyStrip u.lastLogin == "") ∧
    (∀ u ∈ users, pyStrip u.lastLogin = "" →
      u ∈ (cleanup_inactive_users users now dryRun).2) := by
  intro users now dryRun
  have hkey : ∀ (c : Int) (u : UserRow), (pyStrip u.lastLogin == "") = true →
      isInactiveUser c u = false := by
    intro c u h
    unfold isInactiveUser
    rw [if_pos h]
  refine ⟨?_, ?_, ?_⟩
  · intro rep hrep
    cases dryRun with
    | false => simp [cleanup_inactive_users] at hrep
    | true =>
      simp only [cleanup_inactive_users, if_pos] at hrep
      rw [List.mem_map] at hrep
      obtain ⟨q, hq, rfl⟩ := hrep
      rw [List.mem_filter] at hq
      obtain ⟨hq1, hq2⟩ := hq
      intro hcontra
      have hfalse : isInactiveUser (now - 10 * 86400) q.2 = false :=
        hkey _ q.2 (by simp [show pyStrip q.2.lastLogin = "" from hcontra])
      rw [hfalse] at hq2
      exact Bool.noConfusion hq2
  · cases dryRun with
    | true => rfl
    | false =>
      rw [cleanup_inactive_users_table]
      exact countP_filter_of_imp _ _ users (hkey _)
  · intro u hu hempty
    cases dryRun with
    | true => exact hu
    | false =>
      rw [cleanup_inactive_users_table, List.mem_filter]
      refine ⟨hu, ?_⟩
      rw [hkey _ u (by simp [hempty])]
      rfl

/-- Claim C8, witness: a never-logged-in user whose account was created in
1999 survives a real (non-dry) cleanup run. -/
theorem c8_witness :
    UserRow.mk "old" "h" "n" "m" "e" "b" "1999-01-01 00:00:00" "" ""
      ∈ (cleanup_inactive_users
          [UserRow.mk "old" "h" "n" "m" "e" "b" "1999-01-01 00:00:00" "" ""]
          1000000000 false).2 :=
  (c8_never_logged_in_exempt
      [UserRow.mk "old" "h" "n" "m" "e" "b" "1999-01-01 00:00:00" "" ""] 1000000000 false).2.2
    _ (by simp) rfl

/-! ### Claim C9 -/

/-- Claim C9: six requests from one client address within 60 seconds pass
the limiter five times and are rejected the sixth time; and once every
stored entry is more than 60 seconds old, a new request passes again
(entries older than the window are pruned before the count test). -/
theorem c9_rate_limit :
    ∀ t1 t2 t3 t4 t5 t6 : Int, t1 ≤ t2 → t2 ≤ t3 → t3 ≤ t4 → t4 ≤ t5 → t5 ≤ t6 →
    t6 - t1 < 60 →
    (rateLimitRun [] [t1, t2, t3, t4, t5, t6]).1 = [true, true, true, true, true, false] ∧
    (∀ (store : List Int) (now : Int), (∀ t ∈ store, now - t > 60) →
      (rateLimitStep store now).1 = true) := by
  intro t1 t2 t3 t4 t5 t6 h12 h23 h34 h45 h56 hspan
  constructor
  · have k21 : t2 - t1 < 60 := by omega
    have k31 : t3 - t1 < 60 := by omega
    have k32 : t3 - t2 < 60 := by omega
    have k41 : t4 - t1 < 60 := by omega
    have k42 : t4 - t2 < 60 := by omega
    have k43 : t4 - t3 < 60 := by omega
    have k51 : t5 - t1 < 60 := by omega
    have k52 : t5 - t2 < 60 := by omega
    have k53 : t5 - t3 < 60 := by omega
    have k54 : t5 - t4 < 60 := by omega
    have k61 : t6 - t1 < 60 := by omega
    have k62 : t6 - t2 < 60 := by omega
    have k63 : t6 - t3 < 60 := by omega
    have k64 : t6 - t4 < 60 := by omega
    have k65 : t6 - t5 < 60 := by omega
    have s1 : rateLimitStep [] t1 = (true, [t1]) := rfl
    have s2 : rateLimitStep [t1] t2 = (true, [t1, t2]) := by
      simp [rateLimitStep, RATE_LIMIT_WINDOW, RATE_LIMIT_MAX_REQUESTS, k21]
    have s3 : rateLimitStep [t1, t2] t3 = (true, [t1, t2, t3]) := by
      simp [rateLimitStep, RATE_LIMIT_WINDOW, RATE_LIMIT_MAX_REQUESTS, k31, k32]
    have s4 : rateLimitStep [t1, t2, t3] t4 = (true, [t1, t2, t3, t4]) := by
      simp [rateLimitStep, RATE_LIMIT_WINDOW, RATE_LIMIT_MAX_REQUESTS, k41, k42, k43]
    have s5 : rateLimitStep [t1, t2, t3, t4] t5 = (true, [t1, t2, t3, t4, t5]) := by
      simp [rateLimitStep, RATE_LIMIT_WINDOW, RATE_LIMIT_MAX_REQUESTS, k51, k52, k53, k54]
    have s6 : rateLimitStep [t1, t2, t3, t4, t5] t6 = (false, [t1, t2, t3, t4, t5]) := by
      simp [rateLimitStep, RATE_LIMIT_WINDOW, RATE_LIMIT_MAX_REQUESTS, k61, k62, k63, k64, k65]
    simp [rateLimitRun, s1, s2, s3, s4, s5, s6]
  · intro store now h
    have hemp : store.filter (fun t => decide (now - t < RATE_LIMIT_WINDOW)) = [] := by
      rw [List.filter_eq_nil_iff]
      intro t ht
      have := h t ht
      simp only [RATE_LIMIT_WINDOW, decide_eq_true_eq]
      omega
    simp [rateLimitStep, hemp, RATE_LIMIT_MAX_REQUESTS]

/-- Claim C9, witness: six simultaneous requests give five passes then a
rejection, and a single 100-seconds-old entry no longer blocks. -/
theorem c9_witness :
    (rateLimitRun [] [0, 0, 0, 0, 0, 0]).1 = [true, true, true, true, true, false] ∧
    (rateLimitStep [0] 100).1 = true := by
  constructor
  · exact (c9_rate_limit 0 0 0 0 0 0 (le_refl 0) (le_refl 0) (le_refl 0) (le_refl 0)
      (le_refl 0) (by decide)).1
  · exact (c9_rate_limit 0 0 0 0 0 0 (le_refl 0) (le_refl 0) (le_refl 0) (le_refl 0)
      (le_refl 0) (by decide)).2 [0] 100 (by decide)

end BagTracker
